import Mathlib

/-!
Shallow embedding of the Todo CRUD service
(`src/models/todo.py` and `src/api/todo.py`).

The store is modelled as a list of rows in insertion order together with the
autoincrement counter for the primary key.  Each HTTP handler becomes a pure
function from the committed store state (plus the parsed request body, the
current clock reading, and the outcome of the commit issued by the handler) to
a result and the next committed store state.  Timestamps are natural numbers;
the clock is an explicit `now` argument standing for `datetime.now(UTC)`.
-/

set_option autoImplicit false

namespace TodoApp

/-- A JSON scalar as it appears in the request bodies exercised by the
repository (strings and nulls are the only values the tests send). -/
inductive Json where
  | str : String → Json
  | null : Json
deriving DecidableEq, Repr

/-- A JSON object: the raw request body, a list of key/value pairs. -/
abbrev Payload := List (String × Json)

/-- First value bound to key `k` in the JSON object, as pydantic reads it. -/
def lookupField (p : Payload) (k : String) : Option Json :=
  (p.find? (fun kv => kv.fst == k)).map Prod.snd

/-- Value of key `k` when it is present and bound to a string. -/
def lookupStr (p : Payload) (k : String) : Option String :=
  match lookupField p k with
  | some (.str s) => some s
  | _ => none

/-- The SQLAlchemy ORM model `Todo` of `src/models/todo.py`: columns `id`
(integer primary key), `username` (string, NOT NULL), `email` (string,
NOT NULL), `full_name` (string, nullable), `create_date` and `update_date`
(datetimes). -/
structure Todo where
  id : Nat
  username : String
  email : String
  full_name : Option String
  create_date : Nat
  update_date : Nat
deriving DecidableEq, Repr

/-- The pydantic schema `TodoCreate` of `src/models/todo.py`: `username : str`
and `email : str` required, `full_name : Optional[str] = None`.  The flag
`full_name_set` records whether the caller's payload mentioned `full_name`;
pydantic keeps this in `model_fields_set` and `model_dump(exclude_unset=True)`
consults it. -/
structure TodoCreate where
  username : String
  email : String
  full_name : Option String
  full_name_set : Bool
deriving DecidableEq, Repr

/-- Pydantic validation of a request body against `TodoCreate`: each required
field must be present (and a string); a missing required field is reported by
name in a structured 422 response, produced by FastAPI before the handler body
runs.  Unknown keys in the payload are ignored. -/
def validate_todo_create (p : Payload) : Except (List String) TodoCreate :=
  match lookupStr p "username", lookupStr p "email" with
  | some u, some e =>
      .ok { username := u
            email := e
            full_name := match lookupField p "full_name" with
              | some (.str s) => some s
              | _ => none
            full_name_set := (lookupField p "full_name").isSome }
  | some _, none => .error ["email"]
  | none, some _ => .error ["username"]
  | none, none => .error ["username", "email"]

/-- A serialized column value, as placed in the response dictionary. -/
inductive Value where
  | vInt : Nat → Value
  | vStr : String → Value
  | vOptStr : Option String → Value
  | vTime : Nat → Value
deriving DecidableEq, Repr

/-- A serialized record: the dictionary returned by the handlers. -/
abbrev Row := List (String × Value)

/-- The column names of `Todo.__table__.columns`, in declaration order. -/
def todoColumns : List String :=
  ["id", "username", "email", "full_name", "create_date", "update_date"]

/-- `serialize_sqlalchemy_obj`: builds the dictionary mapping every column
name of the record's table to the attribute of that name, no column skipped,
no name changed. -/
def serialize_sqlalchemy_obj (t : Todo) : Row :=
  [ ("id", .vInt t.id)
  , ("username", .vStr t.username)
  , ("email", .vStr t.email)
  , ("full_name", .vOptStr t.full_name)
  , ("create_date", .vTime t.create_date)
  , ("update_date", .vTime t.update_date) ]

/-- Errors a request can end in: a FastAPI 422 body-validation error naming
the offending fields, or an `HTTPException` with a status code and detail
string (404 and 500 in this API). -/
inductive ApiError where
  | validationErr : List String → ApiError
  | httpErr : Nat → String → ApiError
deriving DecidableEq, Repr

/-- Detail string of the 404 raised by get/update/delete on an absent id. -/
def notFoundDetail (id : Nat) : String :=
  "Todo with id " ++ toString id ++ " not found"

/-- Detail string of the 500 raised when the store fails. -/
def internalDetail (msg : String) : String :=
  "Internal server error: " ++ msg

/-- The committed state of the store: rows in insertion order and the next
value of the autoincrement primary key. -/
structure DB where
  rows : List Todo
  next_id : Nat
deriving DecidableEq, Repr

/-- Outcome of the commit a write handler issues: the store either accepts
the transaction or raises, in which case the handler rolls back. -/
inductive DbOutcome where
  | ok : DbOutcome
  | fail : String → DbOutcome
deriving DecidableEq, Repr

/-- `db.query(Todo).filter(Todo.id == id).first()`. -/
def findById (db : DB) (id : Nat) : Option Todo :=
  db.rows.find? (fun t => t.id == id)

/-- Replace the first row whose id matches (the session mutates the object
returned by `first()` and the commit persists it). -/
def replaceFirst (rows : List Todo) (id : Nat) (r : Todo) : List Todo :=
  match rows with
  | [] => []
  | t :: ts => if t.id == id then r :: ts else t :: replaceFirst ts id r

/-- Remove the first row whose id matches (`db.delete(record)`). -/
def removeFirst (rows : List Todo) (id : Nat) : List Todo :=
  match rows with
  | [] => []
  | t :: ts => if t.id == id then ts else t :: removeFirst ts id

/-- The `for key, value in data.items(): setattr(record, key, value)` loop of
`update_todo_full`, where `data = todo_data.model_dump(exclude_unset=False)`:
every field of the schema is assigned (an unset `full_name` was defaulted to
`None` by pydantic). -/
def apply_put (tc : TodoCreate) (now : Nat) (r : Todo) : Todo :=
  { r with username := tc.username
           email := tc.email
           full_name := tc.full_name
           update_date := now }

/-- The same loop in the PATCH handler, where
`data = todo_data.model_dump(exclude_unset=True)`: only fields the caller's
payload mentioned are assigned, the rest keep their stored value. -/
def apply_patch (tc : TodoCreate) (now : Nat) (r : Todo) : Todo :=
  { r with username := tc.username
           email := tc.email
           full_name := if tc.full_name_set then tc.full_name else r.full_name
           update_date := now }

/-- `GET /api/v1/todo`: `list_todo`.  Reads
`db.query(Todo).offset((page-1)*limit).limit(limit).all()` and serializes
each row. -/
def list_todo (db : DB) (page limit : Nat) : List Row :=
  ((db.rows.drop ((page - 1) * limit)).take limit).map serialize_sqlalchemy_obj

/-- `Todo(**data)` for the exclude-unset dump of a validated body, with both
timestamps stamped by the clock and the primary key assigned by the store: a
field absent from the dump (an unset `full_name`) takes its column default. -/
def new_todo (tc : TodoCreate) (id now : Nat) : Todo :=
  { id := id
    username := tc.username
    email := tc.email
    full_name := if tc.full_name_set then tc.full_name else none
    create_date := now
    update_date := now }

/-- `POST /api/v1/todo`: `create_record`.  FastAPI validates the body against
`TodoCreate` first; the handler then builds `Todo(**data)` from the
exclude-unset dump, stamps both timestamps with the clock, inserts and
commits.  A store failure is rolled back and surfaced as a 500. -/
def create_record (db : DB) (p : Payload) (now : Nat) (c : DbOutcome) :
    Except ApiError Row × DB :=
  match validate_todo_create p with
  | .error missing => (.error (.validationErr missing), db)
  | .ok tc =>
      match c with
      | .fail msg => (.error (.httpErr 500 (internalDetail msg)), db)
      | .ok =>
          let newRec := new_todo tc db.next_id now
          (.ok (serialize_sqlalchemy_obj newRec),
           { rows := db.rows ++ [newRec], next_id := db.next_id + 1 })

/-- `GET /api/v1/todo/(id)`: `get_todo_by_id`.  404 with a detail naming the
id when `first()` returns nothing, otherwise the serialized record. -/
def get_todo_by_id (db : DB) (id : Nat) : Except ApiError Row :=
  match findById db id with
  | none => .error (.httpErr 404 (notFoundDetail id))
  | some r => .ok (serialize_sqlalchemy_obj r)

/-- `PUT /api/v1/todo/(id)`: `update_todo_full`.  Body validation, then
lookup (404 when absent), then the exclude-unset=False field application,
`update_date` refresh, commit; a store failure is rolled back and surfaced as
a 500. -/
def update_todo_full (db : DB) (id : Nat) (p : Payload) (now : Nat)
    (c : DbOutcome) : Except ApiError Row × DB :=
  match validate_todo_create p with
  | .error missing => (.error (.validationErr missing), db)
  | .ok tc =>
      match findById db id with
      | none => (.error (.httpErr 404 (notFoundDetail id)), db)
      | some r =>
          match c with
          | .fail msg => (.error (.httpErr 500 (internalDetail msg)), db)
          | .ok =>
              let r2 := apply_put tc now r
              (.ok (serialize_sqlalchemy_obj r2),
               { db with rows := replaceFirst db.rows id r2 })

/-- `PATCH /api/v1/todo/(id)`: the partial-update handler.  Identical to the
PUT handler except that the field application uses the exclude-unset=True
dump. -/
def update_todo_patch (db : DB) (id : Nat) (p : Payload) (now : Nat)
    (c : DbOutcome) : Except ApiError Row × DB :=
  match validate_todo_create p with
  | .error missing => (.error (.validationErr missing), db)
  | .ok tc =>
      match findById db id with
      | none => (.error (.httpErr 404 (notFoundDetail id)), db)
      | some r =>
          match c with
          | .fail msg => (.error (.httpErr 500 (internalDetail msg)), db)
          | .ok =>
              let r2 := apply_patch tc now r
              (.ok (serialize_sqlalchemy_obj r2),
               { db with rows := replaceFirst db.rows id r2 })

/-- `DELETE /api/v1/todo/(id)`: `delete_todo`.  404 when absent; otherwise
the row is deleted, the commit issued, and a confirmation detail returned; a
store failure is rolled back and surfaced as a 500. -/
def delete_todo (db : DB) (id : Nat) (c : DbOutcome) :
    Except ApiError String × DB :=
  match findById db id with
  | none => (.error (.httpErr 404 (notFoundDetail id)), db)
  | some _ =>
      match c with
      | .fail msg => (.error (.httpErr 500 (internalDetail msg)), db)
      | .ok =>
          (.ok ("Todo with id " ++ toString id ++ " deleted successfully"),
           { db with rows := removeFirst db.rows id })

/-! Concrete request bodies and store states used to evaluate the handlers,
taken from the repository's own test suite (`tests/unit`). -/

/-- The body of `test_create_todo_with_all_fields`. -/
def taskPayload : Payload :=
  [("task", Json.str "Buy groceries"), ("due_date", Json.str "2025-12-31T23:59:59Z")]

/-- The body of `test_update_todo_partial`: only `task` supplied. -/
def taskOnlyPayload : Payload :=
  [("task", Json.str "Partially updated task")]

/-- A body carrying exactly the fields the deployed schema requires, with
`task` omitted. -/
def userPayload : Payload :=
  [("username", Json.str "alice"), ("email", Json.str "alice@example.com")]

/-- A stored row with primary key 1 and both timestamps at 5. -/
def aliceTodo : Todo :=
  { id := 1, username := "alice", email := "alice@example.com"
    full_name := some "Alice", create_date := 5, update_date := 5 }

/-- A second stored row with primary key 2. -/
def bobTodo : Todo :=
  { id := 2, username := "bob", email := "bob@example.com"
    full_name := none, create_date := 6, update_date := 6 }

/-- The validated form of `userPayload`. -/
def aliceCreate : TodoCreate :=
  { username := "alice", email := "alice@example.com"
    full_name := none, full_name_set := false }

/-- A body carrying every field of the schema, `full_name` included. -/
def fullPayload : Payload :=
  [ ("username", Json.str "alice"), ("email", Json.str "alice@example.com")
  , ("full_name", Json.str "Alice B") ]

/-- The validated form of `fullPayload`: every field explicitly set. -/
def fullCreate : TodoCreate :=
  { username := "alice", email := "alice@example.com"
    full_name := some "Alice B", full_name_set := true }

/-- A store holding one row, primary key 1. -/
def oneRowDB : DB :=
  { rows := [aliceTodo], next_id := 2 }

/-- A store holding two rows, primary keys 1 and 2. -/
def twoRowDB : DB :=
  { rows := [aliceTodo, bobTodo], next_id := 3 }

/-- C1: the claim reads creation inputs as having a required `task` and an
optional `due_date`.  The deployed schema has neither field: the creation
body of the repository's own test `test_create_todo_with_all_fields` is
rejected with a 422 naming `username` and `email` before the store is
touched, and no column of the table is named `task` or `due_date`. -/
theorem c1_create_task_payload_rejected :
    validate_todo_create taskPayload = .error ["username", "email"]
    ∧ create_record ⟨[], 1⟩ taskPayload 0 .ok
        = (.error (.validationErr ["username", "email"]), ⟨[], 1⟩)
    ∧ "task" ∉ todoColumns ∧ "due_date" ∉ todoColumns := by
  refine ⟨rfl, rfl, ?_, ?_⟩ <;> decide

/-- C2: the claim instantiates the frame property at a partial update
supplying only `task`.  On the deployed schema that request (the body of the
repository's own test `test_update_todo_partial`) never reaches the field
application: it fails body validation with a 422 naming `username` and
`email`, and the store is left unchanged. -/
theorem c2_patch_task_only_payload_rejected :
    update_todo_patch oneRowDB 1 taskOnlyPayload 7 .ok
      = (.error (.validationErr ["username", "email"]), oneRowDB) := by
  rfl

/-- C3: a creation body that omits `task` (it carries only `username` and
`email`) is accepted by the deployed schema and persists a record, so the
store does not remain unchanged. -/
theorem c3_create_without_task_persists :
    lookupField userPayload "task" = none
    ∧ create_record ⟨[], 1⟩ userPayload 3 .ok
        = (.ok (serialize_sqlalchemy_obj
                 { id := 1, username := "alice", email := "alice@example.com"
                   full_name := none, create_date := 3, update_date := 3 }),
           ⟨[{ id := 1, username := "alice", email := "alice@example.com"
               full_name := none, create_date := 3, update_date := 3 }], 2⟩) := by
  exact ⟨rfl, rfl⟩

/-- C9: the serializer is a total function on records; its output lists one
entry per column of the table, keyed by exactly the column names in column
order (no filtering, no renaming), and those names are pairwise distinct, so
each column gets exactly one entry. -/
theorem c9_serializer_covers_every_column :
    ∀ t : Todo, (serialize_sqlalchemy_obj t).map Prod.fst = todoColumns
      ∧ todoColumns.Nodup :=
  fun _ => ⟨rfl, by decide⟩

/-- C4: when the id names no row, get-by-id, full update, partial update and
delete each return the 404 `HTTPException` whose detail names the id —
never a 500 — and the write handlers leave the store unchanged, for any
request body that passes validation and any commit outcome. -/
theorem c4_absent_id_not_found (db : DB) (id : Nat) (p : Payload)
    (tc : TodoCreate) (now : Nat) (c : DbOutcome)
    (hv : validate_todo_create p = .ok tc)
    (hf : findById db id = none) :
    get_todo_by_id db id = .error (.httpErr 404 (notFoundDetail id))
    ∧ update_todo_full db id p now c
        = (.error (.httpErr 404 (notFoundDetail id)), db)
    ∧ update_todo_patch db id p now c
        = (.error (.httpErr 404 (notFoundDetail id)), db)
    ∧ delete_todo db id c = (.error (.httpErr 404 (notFoundDetail id)), db) := by
  refine ⟨?_, ?_, ?_, ?_⟩ <;>
    simp [get_todo_by_id, update_todo_full, update_todo_patch, delete_todo, hv, hf]

/-- Witness for C4 at the empty store, id 99999 and a valid body. -/
theorem c4_absent_id_not_found_witness :
    get_todo_by_id ⟨[], 1⟩ 99999 = .error (.httpErr 404 (notFoundDetail 99999))
    ∧ update_todo_full ⟨[], 1⟩ 99999 userPayload 4 .ok
        = (.error (.httpErr 404 (notFoundDetail 99999)), ⟨[], 1⟩)
    ∧ update_todo_patch ⟨[], 1⟩ 99999 userPayload 4 .ok
        = (.error (.httpErr 404 (notFoundDetail 99999)), ⟨[], 1⟩)
    ∧ delete_todo ⟨[], 1⟩ 99999 .ok
        = (.error (.httpErr 404 (notFoundDetail 99999)), ⟨[], 1⟩) :=
  c4_absent_id_not_found ⟨[], 1⟩ 99999 userPayload aliceCreate 4 .ok rfl rfl

/-- C7: when the store fails the commit, every write handler rolls the
transaction back and surfaces a 500: the committed store state returned is
exactly the state before the call (for create under any body that validates;
for the update handlers and delete under any present row). -/
theorem c7_store_failure_rolls_back (db : DB) (id : Nat) (p : Payload)
    (tc : TodoCreate) (r : Todo) (now : Nat) (msg : String)
    (hv : validate_todo_create p = .ok tc)
    (hf : findById db id = some r) :
    create_record db p now (.fail msg)
      = (.error (.httpErr 500 (internalDetail msg)), db)
    ∧ update_todo_full db id p now (.fail msg)
        = (.error (.httpErr 500 (internalDetail msg)), db)
    ∧ update_todo_patch db id p now (.fail msg)
        = (.error (.httpErr 500 (internalDetail msg)), db)
    ∧ delete_todo db id (.fail msg)
        = (.error (.httpErr 500 (internalDetail msg)), db) := by
  refine ⟨?_, ?_, ?_, ?_⟩ <;>
    simp [create_record, update_todo_full, update_todo_patch, delete_todo, hv, hf]

/-- Witness for C7 at the one-row store and a failing commit. -/
theorem c7_store_failure_rolls_back_witness :
    create_record oneRowDB userPayload 9 (.fail "disk full")
      = (.error (.httpErr 500 (internalDetail "disk full")), oneRowDB)
    ∧ update_todo_full oneRowDB 1 userPayload 9 (.fail "disk full")
        = (.error (.httpErr 500 (internalDetail "disk full")), oneRowDB)
    ∧ update_todo_patch oneRowDB 1 userPayload 9 (.fail "disk full")
        = (.error (.httpErr 500 (internalDetail "disk full")), oneRowDB)
    ∧ delete_todo oneRowDB 1 (.fail "disk full")
        = (.error (.httpErr 500 (internalDetail "disk full")), oneRowDB) :=
  c7_store_failure_rolls_back oneRowDB 1 userPayload aliceCreate aliceTodo
    9 "disk full" rfl rfl

/-- A store of five rows with ids 1 to 5. -/
def fiveRowDB : DB :=
  { rows := (List.range 5).map (fun i =>
      { id := i + 1, username := "user" ++ toString (i + 1)
        email := "user@example.com", full_name := none
        create_date := 0, update_date := 0 })
    next_id := 6 }

/-- C5: listing skips exactly `(page-1)*limit` rows — element `k` of the
response is row `(page-1)*limit + k` of the store — and returns at most
`limit` rows; page 1 holds `min limit N` rows and the ceiling page
`⌈N/limit⌉` holds the remaining `N - (⌈N/limit⌉ - 1) * limit` rows. -/
theorem c5_pagination (db : DB) (page limit : Nat)
    (hp : 1 ≤ page) (hl1 : 1 ≤ limit) (hl2 : limit ≤ 100) :
    (list_todo db page limit).length ≤ limit
    ∧ (∀ k : Nat, k < limit →
        (list_todo db page limit)[k]?
          = (db.rows[(page - 1) * limit + k]?).map serialize_sqlalchemy_obj)
    ∧ (page = 1 → (list_todo db page limit).length = min limit db.rows.length)
    ∧ (0 < db.rows.length → page = (db.rows.length + limit - 1) / limit →
        (list_todo db page limit).length
          = db.rows.length - ((db.rows.length + limit - 1) / limit - 1) * limit) := by
  have hlen : (list_todo db page limit).length
      = min limit (db.rows.length - (page - 1) * limit) := by
    simp [list_todo]
  refine ⟨?_, ?_, ?_, ?_⟩
  · exact le_trans (le_of_eq hlen) (min_le_left _ _)
  · intro k hk
    simp [list_todo, List.getElem?_take, hk, List.getElem?_drop, List.getElem?_map]
  · intro h1
    subst h1
    simpa using hlen
  · intro hN hpage
    subst hpage
    have hq : (db.rows.length + limit - 1) / limit
        = (db.rows.length - 1) / limit + 1 := by
      have he : db.rows.length + limit - 1 = (db.rows.length - 1) + limit := by omega
      rw [he, Nat.add_div_right _ hl1]
    rw [hlen, hq]
    simp only [Nat.add_sub_cancel]
    have hmlt : (db.rows.length - 1) % limit < limit := Nat.mod_lt _ hl1
    have hdm : limit * ((db.rows.length - 1) / limit)
        + (db.rows.length - 1) % limit = db.rows.length - 1 := Nat.div_add_mod _ _
    rw [Nat.mul_comm ((db.rows.length - 1) / limit) limit]
    generalize hX : limit * ((db.rows.length - 1) / limit) = X at hdm ⊢
    generalize hR : (db.rows.length - 1) % limit = R at hmlt hdm
    rw [Nat.min_def]
    split <;> omega

/-- Witness for C5 at a five-row store with limit 2: page 1 holds 2 rows,
page 3 (the ceiling page) holds the remaining 1 row at the right offset. -/
theorem c5_pagination_witness :
    (list_todo fiveRowDB 3 2).length ≤ 2
    ∧ (list_todo fiveRowDB 3 2)[0]?
        = (fiveRowDB.rows[(3 - 1) * 2 + 0]?).map serialize_sqlalchemy_obj
    ∧ (list_todo fiveRowDB 1 2).length = min 2 fiveRowDB.rows.length
    ∧ (list_todo fiveRowDB 3 2).length
        = fiveRowDB.rows.length
          - ((fiveRowDB.rows.length + 2 - 1) / 2 - 1) * 2 := by
  have h3 := c5_pagination fiveRowDB 3 2 (by decide) (by decide) (by decide)
  have h1 := c5_pagination fiveRowDB 1 2 (by decide) (by decide) (by decide)
  exact ⟨h3.1, h3.2.1 0 (by decide), h1.2.2.1 rfl, h3.2.2.2 (by decide) (by decide)⟩

/-- C6 counterexample: the handlers stamp `update_date` with
`datetime.now(UTC)`, a clock of finite resolution that can repeat a reading.
A successful partial update performed while the clock still reads 5 — the
reading the row already carries — returns success yet leaves the stored
`update_date` equal to its previous value, so `update_date` does not
strictly increase on this successful update. -/
theorem c6_strict_increase_counterexample :
    (update_todo_patch oneRowDB 1 userPayload 5 .ok).1
      = .ok (serialize_sqlalchemy_obj aliceTodo)
    ∧ (findById (update_todo_patch oneRowDB 1 userPayload 5 .ok).2 1).map
        Todo.update_date = some aliceTodo.update_date := by
  exact ⟨rfl, rfl⟩

/-- C6 amended: `create_date` is never mutated by either update handler and
creation stamps both timestamps with the same clock reading, so
`create_date = update_date` at creation; each successful update sets
`update_date` to the clock reading of the call, hence `update_date` is
non-decreasing whenever the clock has not gone backwards since the last
write, strictly increases whenever the clock strictly advanced, and
`create_date ≤ update_date` is preserved whenever the clock is at or past
the record's creation reading. -/
theorem c6_timestamps_amended (db : DB) (id : Nat) (p : Payload)
    (tc : TodoCreate) (r : Todo) (now : Nat)
    (hv : validate_todo_create p = .ok tc)
    (hf : findById db id = some r) :
    update_todo_full db id p now .ok
      = (.ok (serialize_sqlalchemy_obj (apply_put tc now r)),
         { db with rows := replaceFirst db.rows id (apply_put tc now r) })
    ∧ update_todo_patch db id p now .ok
      = (.ok (serialize_sqlalchemy_obj (apply_patch tc now r)),
         { db with rows := replaceFirst db.rows id (apply_patch tc now r) })
    ∧ (apply_put tc now r).create_date = r.create_date
    ∧ (apply_patch tc now r).create_date = r.create_date
    ∧ (apply_put tc now r).update_date = now
    ∧ (apply_patch tc now r).update_date = now
    ∧ (r.update_date ≤ now → r.update_date ≤ (apply_put tc now r).update_date
        ∧ r.update_date ≤ (apply_patch tc now r).update_date)
    ∧ (r.update_date < now → r.update_date < (apply_put tc now r).update_date
        ∧ r.update_date < (apply_patch tc now r).update_date)
    ∧ (r.create_date ≤ now →
        (apply_put tc now r).create_date ≤ (apply_put tc now r).update_date
        ∧ (apply_patch tc now r).create_date ≤ (apply_patch tc now r).update_date)
    ∧ create_record db p now .ok
      = (.ok (serialize_sqlalchemy_obj (new_todo tc db.next_id now)),
         { rows := db.rows ++ [new_todo tc db.next_id now]
           next_id := db.next_id + 1 })
    ∧ (new_todo tc db.next_id now).create_date
        = (new_todo tc db.next_id now).update_date := by
  refine ⟨?_, ?_, rfl, rfl, rfl, rfl, fun h => ⟨h, h⟩, fun h => ⟨h, h⟩,
    fun h => ⟨h, h⟩, ?_, rfl⟩ <;>
    simp [update_todo_full, update_todo_patch, create_record, hv, hf]

/-- Witness for C6 at the one-row store: an update at clock reading 9 (the
row was written at 5) preserves `create_date` and strictly increases
`update_date`. -/
theorem c6_timestamps_amended_witness :
    update_todo_patch oneRowDB 1 userPayload 9 .ok
      = (.ok (serialize_sqlalchemy_obj (apply_patch aliceCreate 9 aliceTodo)),
         { oneRowDB with
             rows := replaceFirst oneRowDB.rows 1 (apply_patch aliceCreate 9 aliceTodo) })
    ∧ (apply_put aliceCreate 9 aliceTodo).create_date = aliceTodo.create_date
    ∧ aliceTodo.update_date < (apply_patch aliceCreate 9 aliceTodo).update_date
    ∧ (new_todo aliceCreate oneRowDB.next_id 9).create_date
        = (new_todo aliceCreate oneRowDB.next_id 9).update_date := by
  have h := c6_timestamps_amended oneRowDB 1 userPayload aliceCreate aliceTodo 9
    rfl rfl
  exact ⟨h.2.1, h.2.2.1, (h.2.2.2.2.2.2.2.1 (by decide)).2, h.2.2.2.2.2.2.2.2.2.2⟩

/-- C10: on a payload in which every field of the input schema is explicitly
present (so nothing is unset), the PUT and PATCH handlers coincide: the
exclude-unset dump equals the full dump, so both apply the same fields and
produce the same record and the same store. -/
theorem c10_put_patch_agree (db : DB) (id : Nat) (p : Payload)
    (tc : TodoCreate) (r : Todo) (now : Nat) (c : DbOutcome)
    (hv : validate_todo_create p = .ok tc)
    (hset : tc.full_name_set = true)
    (hf : findById db id = some r) :
    update_todo_full db id p now c = update_todo_patch db id p now c := by
  cases c <;>
    simp [update_todo_full, update_todo_patch, hv, hf, apply_put, apply_patch, hset]

/-- Witness for C10 at the one-row store and a body that sets every field. -/
theorem c10_put_patch_agree_witness :
    update_todo_full oneRowDB 1 fullPayload 9 .ok
      = update_todo_patch oneRowDB 1 fullPayload 9 .ok :=
  c10_put_patch_agree oneRowDB 1 fullPayload fullCreate aliceTodo 9 .ok
    rfl rfl rfl

/-- When the stored primary keys are distinct (the store enforces this for a
primary-key column), no row surviving `removeFirst` carries the removed id. -/
theorem not_mem_removeFirst_ids (rows : List Todo) (id : Nat)
    (hnd : (rows.map Todo.id).Nodup) :
    ∀ t ∈ removeFirst rows id, t.id ≠ id := by
  induction rows with
  | nil => intro t ht; simp [removeFirst] at ht
  | cons a as ih =>
    have hnd2 : a.id ∉ as.map Todo.id ∧ (as.map Todo.id).Nodup := by
      simpa [List.nodup_cons] using hnd
    intro t ht
    by_cases hb : a.id = id
    · rw [removeFirst, if_pos (by simpa using hb)] at ht
      intro hteq
      exact hnd2.1 (List.mem_map.mpr ⟨t, ht, hteq.trans hb.symm⟩)
    · rw [removeFirst, if_neg (by simpa using hb)] at ht
      rcases List.mem_cons.mp ht with h | h
      · subst h; exact hb
      · exact ih hnd2.2 t h

/-- The serialized record carries the id of the record it was built from: an
entry keyed `id` with value `n` forces `n` to be the record's id. -/
theorem id_entry_of_serialize (t : Todo) (n : Nat)
    (h : ("id", Value.vInt n) ∈ serialize_sqlalchemy_obj t) : n = t.id := by
  simp only [serialize_sqlalchemy_obj, List.mem_cons, List.not_mem_nil,
    or_false, Prod.mk.injEq] at h
  rcases h with ⟨_, hv⟩ | ⟨hk, _⟩ | ⟨hk, _⟩ | ⟨hk, _⟩ | ⟨hk, _⟩ | ⟨hk, _⟩
  · exact Value.vInt.inj hv
  all_goals simp at hk

/-- C8: once a delete of `id` succeeds, the id names no row: get, full
update, partial update and delete on it all return the 404 naming the id
(leaving the store unchanged), and no page of the list operation ever
contains a record serialized with that id — assuming the store's primary-key
uniqueness and a body that validates for the update handlers. -/
theorem c8_delete_then_gone (db : DB) (id : Nat) (p : Payload)
    (tc : TodoCreate) (now : Nat) (m : String) (db2 : DB)
    (hnd : (db.rows.map Todo.id).Nodup)
    (hv : validate_todo_create p = .ok tc)
    (hdel : delete_todo db id .ok = (.ok m, db2)) :
    get_todo_by_id db2 id = .error (.httpErr 404 (notFoundDetail id))
    ∧ update_todo_full db2 id p now .ok
        = (.error (.httpErr 404 (notFoundDetail id)), db2)
    ∧ update_todo_patch db2 id p now .ok
        = (.error (.httpErr 404 (notFoundDetail id)), db2)
    ∧ delete_todo db2 id .ok
        = (.error (.httpErr 404 (notFoundDetail id)), db2)
    ∧ ∀ page limit : Nat, ∀ s ∈ list_todo db2 page limit,
        ("id", Value.vInt id) ∉ s := by
  have hrows : db2.rows = removeFirst db.rows id := by
    rcases hfind : findById db id with _ | r
    · have hred : delete_todo db id .ok
          = (.error (.httpErr 404 (notFoundDetail id)), db) := by
        rw [delete_todo, hfind]
      rw [hred] at hdel
      simp at hdel
    · have hred : delete_todo db id .ok
          = (.ok ("Todo with id " ++ toString id ++ " deleted successfully"),
             { db with rows := removeFirst db.rows id }) := by
        rw [delete_todo, hfind]
      rw [hred] at hdel
      exact (congrArg (fun x => x.2.rows) hdel).symm
  have hgone : ∀ t ∈ db2.rows, ¬(t.id == id) = true := by
    intro t ht
    simpa using not_mem_removeFirst_ids db.rows id hnd t (hrows ▸ ht)
  have hf2 : findById db2 id = none := List.find?_eq_none.mpr hgone
  refine ⟨?_, ?_, ?_, ?_, ?_⟩
  · simp [get_todo_by_id, hf2]
  · simp [update_todo_full, hv, hf2]
  · simp [update_todo_patch, hv, hf2]
  · simp [delete_todo, hf2]
  · intro page limit s hs hmem
    obtain ⟨t, ht, rfl⟩ := List.mem_map.mp hs
    have ht2 : t ∈ db2.rows :=
      List.mem_of_mem_drop (List.mem_of_mem_take ht)
    have hne : t.id ≠ id := by simpa using hgone t ht2
    exact hne (id_entry_of_serialize t id hmem).symm

/-- Witness for C8: deleting row 1 from the two-row store leaves only row 2;
every follow-up operation on id 1 is a 404 and the listed page does not
contain an `id = 1` entry. -/
theorem c8_delete_then_gone_witness :
    get_todo_by_id ⟨[bobTodo], 3⟩ 1 = .error (.httpErr 404 (notFoundDetail 1))
    ∧ update_todo_full ⟨[bobTodo], 3⟩ 1 userPayload 9 .ok
        = (.error (.httpErr 404 (notFoundDetail 1)), ⟨[bobTodo], 3⟩)
    ∧ update_todo_patch ⟨[bobTodo], 3⟩ 1 userPayload 9 .ok
        = (.error (.httpErr 404 (notFoundDetail 1)), ⟨[bobTodo], 3⟩)
    ∧ delete_todo ⟨[bobTodo], 3⟩ 1 .ok
        = (.error (.httpErr 404 (notFoundDetail 1)), ⟨[bobTodo], 3⟩)
    ∧ ("id", Value.vInt 1) ∉ serialize_sqlalchemy_obj bobTodo := by
  have h := c8_delete_then_gone twoRowDB 1 userPayload aliceCreate 9
    "Todo with id 1 deleted successfully" ⟨[bobTodo], 3⟩ (by decide) rfl rfl
  exact ⟨h.1, h.2.1, h.2.2.1, h.2.2.2.1,
    h.2.2.2.2 1 10 (serialize_sqlalchemy_obj bobTodo) (by decide)⟩

end TodoApp
